import Mathlib

/-
Shallow embedding of `python_modules/dagster/dagster/_daemon/auto_run_reexecution/
auto_run_reexecution.py`: the automatic run-retry decision and submission engine.

Pure data (runs, tags) is translated directly.  Stateful collaborator calls
(`instance.report_engine_event`, `instance.get_run_group`, run creation,
submission, tagging) are made explicit: read-only collaborator state lives in a
`DagsterInstance` / `Workspace` record, and the side effects a function requests
are returned as data (`List EngineEvent`, `InstanceEffects`).  A Python
generator becomes a function returning the list of items it yields together
with the events it reports along the way.
-/

set_option autoImplicit false

namespace AutoReexec

/-- Modelled from the spec: run-status enumeration of the run-storage
collaborator (`dagster._core.storage.dagster_run.DagsterRunStatus`, not under
the sources).  The engine only distinguishes `FAILURE` from everything else. -/
inductive DagsterRunStatus where
  | QUEUED
  | NOT_STARTED
  | STARTING
  | STARTED
  | SUCCESS
  | FAILURE
  | CANCELING
  | CANCELED
  deriving DecidableEq, Repr

/-- Modelled from the spec: a remote-job origin identifies a repository within
a named code location (the `remote_job_origin.repository_origin` chain used by
`retry_run`). -/
structure RemoteJobOrigin where
  location_name : String
  repository_name : String
  deriving DecidableEq, Repr

/-- A run record, as read by this engine: identifier, status, optional parent
run, job name, optional op/asset selection, optional remote-job origin, and a
string-keyed tag map (modelled as an association list, first binding wins). -/
structure DagsterRun where
  run_id : String
  status : DagsterRunStatus
  parent_run_id : Option String
  job_name : String
  op_selection : Option (List String)
  asset_selection : Option (List String)
  remote_job_origin : Option RemoteJobOrigin
  tags : List (String × String)
  deriving DecidableEq, Repr

/-- `run.tags.get(key)`: first binding for `key`, if any. -/
def getTag (run : DagsterRun) (key : String) : Option String :=
  (run.tags.find? (fun kv => kv.1 == key)).map (fun kv => kv.2)

/-- `dict`-update on the tag map: bind `key` to `value`, shadowing any older
binding (used in theorem statements to talk about a run with one tag set). -/
def addTag (run : DagsterRun) (key value : String) : DagsterRun :=
  { run with tags := (key, value) :: run.tags }

/-- Modelled from the spec: the recognized tag keys exported by
`dagster._core.storage.tags` (not under the sources; the spec lists the six
keys in its tag table). -/
def MAX_RETRIES_TAG : String := "dagster/max_retries"

/-- Modelled from the spec: tag recording the generation on a new retry run. -/
def RETRY_NUMBER_TAG : String := "dagster/retry_number"

/-- Modelled from the spec: tag naming the re-execution strategy variant. -/
def RETRY_STRATEGY_TAG : String := "dagster/retry_strategy"

/-- Modelled from the spec: boolean-ish tag overriding the process-wide
retry-on-asset-or-op-failure gate. -/
def RETRY_ON_ASSET_OR_OP_FAILURE_TAG : String := "dagster/retry_on_asset_or_op_failure"

/-- Modelled from the spec: tag carrying the reason a run failed, compared
against the step-failure sentinel. -/
def RUN_FAILURE_REASON_TAG : String := "dagster/run_failure_reason"

/-- Modelled from the spec: lineage-pointer tag set on the parent after a
successful retry submission. -/
def AUTO_RETRY_RUN_ID_TAG : String := "dagster/auto_retry_run_id"

/-- Modelled from the spec: `dagster._core.events.RunFailureReason` (not under
the sources); the engine compares the failure-reason tag against
`RunFailureReason.STEP_FAILURE.value`. -/
inductive RunFailureReason where
  | STEP_FAILURE
  | RUN_EXCEPTION
  | START_TIMEOUT
  | UNKNOWN
  deriving DecidableEq, Repr

/-- The `.value` string of each `RunFailureReason` member. -/
def RunFailureReason.value : RunFailureReason → String
  | .STEP_FAILURE => "STEP_FAILURE"
  | .RUN_EXCEPTION => "RUN_EXCEPTION"
  | .START_TIMEOUT => "START_TIMEOUT"
  | .UNKNOWN => "UNKNOWN"

/-- Modelled from the spec: the closed set of re-execution strategy variants
(`dagster._core.execution.plan.resume_retry.ReexecutionStrategy`, not under the
sources; the spec names "restart at the point of failure" and "full re-run"). -/
inductive ReexecutionStrategy where
  | FROM_FAILURE
  | ALL_STEPS
  deriving DecidableEq, Repr

/-- `ReexecutionStrategy.__members__` lookup by member name. -/
def reexecutionStrategyMember : String → Option ReexecutionStrategy
  | "FROM_FAILURE" => some ReexecutionStrategy.FROM_FAILURE
  | "ALL_STEPS" => some ReexecutionStrategy.ALL_STEPS
  | _ => none

/-- `DEFAULT_REEXECUTION_POLICY = ReexecutionStrategy.FROM_FAILURE`. -/
def DEFAULT_REEXECUTION_POLICY : ReexecutionStrategy := ReexecutionStrategy.FROM_FAILURE

/-- Structured payload attached to an engine event (`EngineEventData`):
nothing, a metadata link to another run, or captured error info. -/
inductive EventData where
  | none
  | runLink (label : String) (run_id : String)
  | errorInfo (info : String)
  deriving DecidableEq, Repr

/-- One `report_engine_event` call: message, the run it is reported on, and
its structured payload. -/
structure EngineEvent where
  message : String
  run_id : String
  data : EventData
  deriving DecidableEq, Repr

/-- Modelled from the spec: the read-only face of the `DagsterInstance`
collaborator (not under the sources): run-group lookup
`getRunGroup(runId) → Optional[(root, members)]`, the two process-wide
defaults, and the identifier the next created run will receive (run-id
generation belongs to the collaborator). -/
structure DagsterInstance where
  run_groups : String → Option (String × List DagsterRun)
  run_retries_retry_on_asset_or_op_failure : Bool
  run_retries_max_retries : Int
  next_run_id : String

/-- Python `int(s)`: strip surrounding whitespace, allow one leading sign,
then at least one decimal digit; anything else raises `ValueError`, modelled
as `none`. -/
def parsePythonInt (s : String) : Option Int :=
  let trimmed := ((s.data.dropWhile Char.isWhitespace).reverse.dropWhile Char.isWhitespace).reverse
  let signed : Bool × List Char :=
    match trimmed with
    | '-' :: rest => (true, rest)
    | '+' :: rest => (false, rest)
    | l => (false, l)
  if signed.2.isEmpty || !signed.2.all Char.isDigit then Option.none
  else
    let n : Nat := signed.2.foldl (fun acc c => acc * 10 + (c.toNat - '0'.toNat)) 0
    some (if signed.1 then -(n : Int) else (n : Int))

/-- Character-wise lower-casing of a string (`str.lower()` on the ASCII
spellings the boolean-ish tag values use). -/
def lowerString (s : String) : String :=
  String.mk (s.data.map Char.toLower)

/-- Modelled from the spec: `dagster._utils.tags.get_boolean_tag_value` (not
under the sources).  The spec calls the tag a "boolean-ish string" whose value
"overrides a process-wide default" when present, the default applying when
absent; false-ish spellings parse as `false`, everything else as `true`. -/
def get_boolean_tag_value (tag_value : Option String) (default_value : Bool) : Bool :=
  match tag_value with
  | Option.none => default_value
  | some s => !(["false", "none", "0", ""].contains (lowerString s))

/-- The event reported at line 41 of the source when the `max_retries` tag
does not parse as an integer. -/
def max_retries_parse_event (run : DagsterRun) : EngineEvent :=
  { message := "Error parsing int from tag " ++ MAX_RETRIES_TAG ++ ", won\x27t retry the run."
    run_id := run.run_id
    data := EventData.none }

/-- The event reported at line 80 of the source when a step-failure run is
skipped because the retry-on-asset-or-op-failure gate is off. -/
def asset_op_skip_event (run : DagsterRun) : EngineEvent :=
  { message := "Not retrying run since it failed due to an asset or op failure and run retries are configured with retry_on_asset_or_op_failure set to false."
    run_id := run.run_id
    data := EventData.none }

/-- Tail of `get_retry_number` once the retry budget is resolved (source lines
46-65): a zero budget excludes; with a group, a group already at
`max_retries + 1` excludes, a member whose parent is this run excludes, and
otherwise the generation is the group size; with no group the generation is 1. -/
def retry_number_given_budget (inst : DagsterInstance) (run : DagsterRun)
    (max_retries : Int) : Option Nat × List EngineEvent :=
  if max_retries = 0 then (Option.none, [])
  else
    match inst.run_groups run.run_id with
    | some (_, run_group_list) =>
      if (run_group_list.length : Int) ≥ max_retries + 1 then (Option.none, [])
      else if run_group_list.any (fun member => member.parent_run_id == some run.run_id) then
        (Option.none, [])
      else (some run_group_list.length, [])
    | Option.none => (some 1, [])

/-- The inner `get_retry_number` of `filter_runs_to_should_retry` (source
lines 30-65): `none` plus the events it reported when the run is excluded,
`some generation` when eligible. -/
def get_retry_number (inst : DagsterInstance) (default_max_retries : Int)
    (run : DagsterRun) : Option Nat × List EngineEvent :=
  if run.status ≠ DagsterRunStatus.FAILURE then (Option.none, [])
  else
    match getTag run MAX_RETRIES_TAG with
    | Option.none => retry_number_given_budget inst run default_max_retries
    | some raw =>
      match parsePythonInt raw with
      | Option.none => (Option.none, [max_retries_parse_event run])
      | some max_retries => retry_number_given_budget inst run max_retries

/-- Second half of one iteration of the `for run in runs` loop of
`filter_runs_to_should_retry` (source lines 75-86), given the retry number and
the events `get_retry_number` produced: apply the asset/op-failure gate and
either report the skip or yield the pair. -/
def filter_one_post (inst : DagsterInstance) (run : DagsterRun) :
    Option Nat × List EngineEvent → Option (DagsterRun × Nat) × List EngineEvent
  | (Option.none, evs) => (Option.none, evs)
  | (some n, evs) =>
    if getTag run RUN_FAILURE_REASON_TAG = some RunFailureReason.STEP_FAILURE.value
        ∧ get_boolean_tag_value (getTag run RETRY_ON_ASSET_OR_OP_FAILURE_TAG)
            inst.run_retries_retry_on_asset_or_op_failure = false then
      (Option.none, evs ++ [asset_op_skip_event run])
    else
      (some (run, n), evs)

/-- One iteration of the `for run in runs` loop of
`filter_runs_to_should_retry` (source lines 69-86): the pair yielded for this
run (if any) and the events reported while processing it. -/
def filter_one (inst : DagsterInstance) (default_max_retries : Int)
    (run : DagsterRun) : Option (DagsterRun × Nat) × List EngineEvent :=
  filter_one_post inst run (get_retry_number inst default_max_retries run)

/-- `filter_runs_to_should_retry(runs, instance, default_max_retries)`: the
generator yielded `(run, retry_number)` pairs in order, together with every
event it reported. -/
def filter_runs_to_should_retry :
    List DagsterRun → DagsterInstance → Int → List (DagsterRun × Nat) × List EngineEvent
  | [], _, _ => ([], [])
  | run :: rest, inst, default_max_retries =>
    let step := filter_one inst default_max_retries run
    let tail := filter_runs_to_should_retry rest inst default_max_retries
    (step.1.toList ++ tail.1, step.2 ++ tail.2)

/-- The event reported at line 97 of the source when the `retry_strategy` tag
does not name a `ReexecutionStrategy` member. -/
def retry_strategy_parse_event (run : DagsterRun) (raw : String) : EngineEvent :=
  { message := "Error parsing retry strategy from tag \x27" ++ RETRY_STRATEGY_TAG
      ++ ": " ++ raw ++ "\x27"
    run_id := run.run_id
    data := EventData.none }

/-- `get_reexecution_strategy(run, instance)` (source lines 89-102): the
selected strategy, if any, and the events it reported. -/
def get_reexecution_strategy (run : DagsterRun) :
    Option ReexecutionStrategy × List EngineEvent :=
  match getTag run RETRY_STRATEGY_TAG with
  | Option.none => (Option.none, [])
  | some raw_strategy_tag =>
    match reexecutionStrategyMember raw_strategy_tag with
    | Option.none => (Option.none, [retry_strategy_parse_event run raw_strategy_tag])
    | some strategy => (some strategy, [])

/-- Modelled from the spec: a repository handle inside a code location
(`Repository.hasJob(name)` is the only capability the engine needs). -/
structure Repository where
  name : String
  jobs : List String
  deriving DecidableEq, Repr

/-- Modelled from the spec: a resolved code location holding named
repositories. -/
structure CodeLocation where
  name : String
  repositories : List Repository
  deriving DecidableEq, Repr

/-- `code_location.has_repository(name)`. -/
def CodeLocation.has_repository (loc : CodeLocation) (repo_name : String) : Bool :=
  loc.repositories.any (fun repo => repo.name == repo_name)

/-- `code_location.get_repository(name)`: the named repository, if present. -/
def CodeLocation.get_repository (loc : CodeLocation) (repo_name : String) : Option Repository :=
  loc.repositories.find? (fun repo => repo.name == repo_name)

/-- `repo.has_job(name)`. -/
def Repository.has_job (repo : Repository) (job_name : String) : Bool :=
  repo.jobs.contains job_name

/-- `JobSubsetSelector` as built at source lines 143-153. -/
structure JobSubsetSelector where
  location_name : String
  repository_name : String
  job_name : String
  op_selection : Option (List String)
  asset_selection : Option (List String)
  deriving DecidableEq, Repr

/-- Modelled from the spec: the remote-job handle returned by
`CodeLocation.getJob(selector)`, preserving the subset selection of the selector. -/
structure RemoteJob where
  job_name : String
  op_selection : Option (List String)
  asset_selection : Option (List String)
  deriving DecidableEq, Repr

/-- Modelled from the spec: `code_location.get_job(selector)` resolves the
re-executable handle for the selected job and subset. -/
def CodeLocation.get_job (_loc : CodeLocation) (selector : JobSubsetSelector) : RemoteJob :=
  { job_name := selector.job_name
    op_selection := selector.op_selection
    asset_selection := selector.asset_selection }

/-- Modelled from the spec: the workspace request context.  Its
`getCodeLocation(name) → CodeLocation` resolver (spec interface table) does
not return an optional: when the named location does not exist the call fails
with an exception, modelled as `Except.error`. -/
structure Workspace where
  code_locations : List CodeLocation
  deriving DecidableEq, Repr

/-- Modelled from the spec: `workspace.get_code_location(name)` returns the
named code location or raises when it is missing. -/
def Workspace.get_code_location (workspace : Workspace) (location_name : String) :
    Except String CodeLocation :=
  match workspace.code_locations.find? (fun loc => loc.name == location_name) with
  | some loc => Except.ok loc
  | Option.none => Except.error ("Location " ++ location_name ++ " does not exist in workspace")

/-- The `IWorkspaceProcessContext` collaborator: its instance and the request
context its `create_request_context()` hands out. -/
structure IWorkspaceProcessContext where
  inst : DagsterInstance
  request_context : Workspace

/-- `workspace_process_context.create_request_context()`. -/
def IWorkspaceProcessContext.create_request_context
    (ctx : IWorkspaceProcessContext) : Workspace :=
  ctx.request_context

/-- Modelled from the spec: `instance.create_reexecuted_run(...)` creates a
new run that re-executes `parent_run` under `strategy`, with its identifier
drawn from the collaborator, its parent pointing at the failed run, the
subset selection of the selector preserved, and its tags the tags of the parent
(`use_parent_run_tags = True`) updated with `extra_tags`. -/
def create_reexecuted_run (inst : DagsterInstance) (parent_run : DagsterRun)
    (_code_location : CodeLocation) (remote_job : RemoteJob)
    (_strategy : ReexecutionStrategy) (extra_tags : List (String × String))
    (use_parent_run_tags : Bool) : DagsterRun :=
  { run_id := inst.next_run_id
    status := DagsterRunStatus.NOT_STARTED
    parent_run_id := some parent_run.run_id
    job_name := parent_run.job_name
    op_selection := remote_job.op_selection
    asset_selection := remote_job.asset_selection
    remote_job_origin := parent_run.remote_job_origin
    tags := extra_tags ++ (if use_parent_run_tags then parent_run.tags else []) }

/-- The side effects a successful `retry_run` requested from its
collaborators: events reported, runs created (with the strategy each was
created under), run ids submitted for execution, and tag mutations requested. -/
structure InstanceEffects where
  events : List EngineEvent
  created_runs : List (DagsterRun × ReexecutionStrategy)
  submitted_run_ids : List String
  added_tags : List (String × List (String × String))
  deriving DecidableEq, Repr

/-- Effects consisting of a single reported event and nothing else (the
soft-fail checkpoints of `retry_run`). -/
def eventOnly (event : EngineEvent) : InstanceEffects :=
  { events := [event], created_runs := [], submitted_run_ids := [], added_tags := [] }

/-- The soft-fail event of the source for a missing remote-job origin (line 115). -/
def missing_origin_event (run : DagsterRun) : EngineEvent :=
  { message := "Run does not have an external job origin, unable to retry the run."
    run_id := run.run_id
    data := EventData.none }

/-- The soft-fail event of the source for a missing repository (line 126). -/
def missing_repo_event (run : DagsterRun) (repo_name loc_name : String) : EngineEvent :=
  { message := "Could not find repository " ++ repo_name ++ " in location " ++ loc_name
      ++ ", unable to retry the run. It was likely renamed or deleted."
    run_id := run.run_id
    data := EventData.none }

/-- The soft-fail event of the source for a missing job (line 136). -/
def missing_job_event (run : DagsterRun) (job_name repo_name : String) : EngineEvent :=
  { message := "Could not find job " ++ job_name ++ " in repository " ++ repo_name
      ++ ", unable to retry the run. It was likely renamed or deleted."
    run_id := run.run_id
    data := EventData.none }

/-- `retry_run(failed_run, retry_number, workspace_context)` (source lines
105-180).  Soft-fail checkpoints return `Except.ok` carrying only the reported
event; a failing collaborator call (here: code-location resolution, whose
resolver raises on a missing location) propagates as `Except.error`; the
success path returns every requested effect. -/
def retry_run (failed_run : DagsterRun) (retry_number : Nat)
    (workspace_context : IWorkspaceProcessContext) : Except String InstanceEffects :=
  let tags := [(RETRY_NUMBER_TAG, toString retry_number)]
  let workspace := workspace_context.create_request_context
  match failed_run.remote_job_origin with
  | Option.none => Except.ok (eventOnly (missing_origin_event failed_run))
  | some origin =>
    match workspace.get_code_location origin.location_name with
    | Except.error e => Except.error e
    | Except.ok code_location =>
      let repo_name := origin.repository_name
      if !(code_location.has_repository repo_name) then
        Except.ok (eventOnly (missing_repo_event failed_run repo_name code_location.name))
      else
        match code_location.get_repository repo_name with
        | Option.none =>
          Except.error ("Could not find repository " ++ repo_name)
        | some repo =>
          if !(repo.has_job failed_run.job_name) then
            Except.ok (eventOnly (missing_job_event failed_run failed_run.job_name repo_name))
          else
            let remote_job := code_location.get_job
              { location_name := origin.location_name
                repository_name := repo_name
                job_name := failed_run.job_name
                op_selection := failed_run.op_selection
                asset_selection := failed_run.asset_selection }
            let strat := get_reexecution_strategy failed_run
            let strategy := strat.1.getD DEFAULT_REEXECUTION_POLICY
            let new_run := create_reexecuted_run workspace_context.inst failed_run
              code_location remote_job strategy tags true
            Except.ok
              { events := strat.2 ++
                  [{ message := "Retrying the run"
                     run_id := failed_run.run_id
                     data := EventData.runLink "new run" new_run.run_id },
                   { message := "Launched as an automatic retry"
                     run_id := new_run.run_id
                     data := EventData.runLink "failed run" failed_run.run_id }]
                created_runs := [(new_run, strategy)]
                submitted_run_ids := [new_run.run_id]
                added_tags := [(failed_run.run_id, [(AUTO_RETRY_RUN_ID_TAG, new_run.run_id)])] }

/-- A run record as handed to the orchestrator (`RunRecord.dagster_run`). -/
structure RunRecord where
  dagster_run : DagsterRun

/-- The event the orchestrator reports when a submission raises (source lines
202-208): captured error detail attached to the failed run. -/
def failed_retry_event (run : DagsterRun) (error_info : String) : EngineEvent :=
  { message := "Failed to retry run"
    run_id := run.run_id
    data := EventData.errorInfo error_info }

/-- One observable step of the orchestrator: the cooperative `yield` before a
submission of a candidate, a completed submission with its effects, or a
submission whose exception was caught and reported. -/
inductive OrchestratorStep where
  | checkpoint (run_id : String)
  | submitted (run_id : String) (effects : InstanceEffects)
  | submission_failed (run_id : String) (event : EngineEvent)
  deriving DecidableEq, Repr

/-- The per-candidate loop body of `consume_new_runs_for_automatic_reexecution`
(source lines 193-208): yield a checkpoint, then run the submitter inside the
try/except boundary, turning an escaped exception into a reported event. -/
def run_candidates (ctx : IWorkspaceProcessContext) :
    List (DagsterRun × Nat) → List OrchestratorStep
  | [] => []
  | (run, retry_number) :: rest =>
    OrchestratorStep.checkpoint run.run_id ::
      (match retry_run run retry_number ctx with
       | Except.ok effects => OrchestratorStep.submitted run.run_id effects
       | Except.error e =>
         OrchestratorStep.submission_failed run.run_id (failed_retry_event run e)) ::
      run_candidates ctx rest

/-- `consume_new_runs_for_automatic_reexecution(workspace_process_context,
run_records)`: drive the filter over the batch and process every candidate;
the returned trace is total — no exception of any candidate escapes. -/
def consume_new_runs_for_automatic_reexecution (ctx : IWorkspaceProcessContext)
    (run_records : List RunRecord) : List OrchestratorStep :=
  run_candidates ctx
    (filter_runs_to_should_retry (run_records.map RunRecord.dagster_run)
      ctx.inst ctx.inst.run_retries_max_retries).1

/-- The retry budget the filter resolves for a run (source lines 34-44): the
parsed `max_retries` tag when present, the supplied default when absent,
`none` when the tag is present but unparsable. -/
def effectiveMaxRetries (run : DagsterRun) (default_max_retries : Int) : Option Int :=
  match getTag run MAX_RETRIES_TAG with
  | Option.none => some default_max_retries
  | some raw => parsePythonInt raw

/- ### Helper lemmas about the filter -/

theorem filter_one_fst (inst : DagsterInstance) (d : Int) (r : DagsterRun)
    (p : DagsterRun × Nat) (h : (filter_one inst d r).1 = some p) : p.1 = r := by
  rcases hg : get_retry_number inst d r with ⟨rn, evs⟩
  rw [filter_one, hg] at h
  cases rn with
  | none => simp [filter_one_post] at h
  | some n =>
    simp only [filter_one_post] at h
    split at h
    · simp at h
    · simp at h
      rw [← h]

theorem mem_filter_yield {inst : DagsterInstance} {d : Int} :
    ∀ {runs : List DagsterRun} {r : DagsterRun} {n : Nat},
      (r, n) ∈ (filter_runs_to_should_retry runs inst d).1 →
      (filter_one inst d r).1 = some (r, n) := by
  intro runs
  induction runs with
  | nil => intro r n h; simp [filter_runs_to_should_retry] at h
  | cons run rest ih =>
    intro r n h
    simp only [filter_runs_to_should_retry, List.mem_append] at h
    rcases h with h | h
    · rcases ho : (filter_one inst d run).1 with _ | p
      · rw [ho] at h; simp at h
      · rw [ho] at h
        simp at h
        have hfst := filter_one_fst inst d run p ho
        rw [← h] at hfst
        rw [← h] at ho
        rw [← hfst] at ho
        exact ho
    · exact ih h

theorem mem_filter_events {inst : DagsterInstance} {d : Int} :
    ∀ {runs : List DagsterRun} {r : DagsterRun} {e : EngineEvent},
      r ∈ runs → e ∈ (filter_one inst d r).2 →
      e ∈ (filter_runs_to_should_retry runs inst d).2 := by
  intro runs
  induction runs with
  | nil => intro r e h; simp at h
  | cons run rest ih =>
    intro r e h he
    simp only [filter_runs_to_should_retry, List.mem_append]
    rcases List.mem_cons.mp h with h | h
    · left; rw [← h]; exact he
    · right; exact ih h he

theorem filter_one_none_of_rn (inst : DagsterInstance) (d : Int) (r : DagsterRun)
    (h : (get_retry_number inst d r).1 = Option.none) :
    (filter_one inst d r).1 = Option.none := by
  rcases hg : get_retry_number inst d r with ⟨rn, evs⟩
  rw [hg] at h
  simp at h
  subst h
  rw [filter_one, hg]
  simp [filter_one_post]

theorem filter_one_events_of_rn (inst : DagsterInstance) (d : Int) (r : DagsterRun)
    {e : EngineEvent} (h : e ∈ (get_retry_number inst d r).2) :
    e ∈ (filter_one inst d r).2 := by
  rcases hg : get_retry_number inst d r with ⟨rn, evs⟩
  rw [hg] at h
  simp at h
  cases rn with
  | none => rw [filter_one, hg]; exact h
  | some n =>
    rw [filter_one, hg]
    simp only [filter_one_post]
    split
    · simp [h]
    · simp [h]

theorem filter_one_some_rn (inst : DagsterInstance) (d : Int) (r : DagsterRun)
    (p : DagsterRun × Nat) (h : (filter_one inst d r).1 = some p) :
    (get_retry_number inst d r).1 = some p.2 := by
  rcases hg : get_retry_number inst d r with ⟨rn, evs⟩
  rw [filter_one, hg] at h
  cases rn with
  | none => simp [filter_one_post] at h
  | some n =>
    simp only [filter_one_post] at h
    split at h
    · simp at h
    · simp at h
      rw [← h]

theorem rgb_none_of_child (inst : DagsterInstance) (run : DagsterRun) (m : Int)
    {root : String} {members : List DagsterRun}
    (hg : inst.run_groups run.run_id = some (root, members))
    (hc : ∃ member ∈ members, member.parent_run_id = some run.run_id) :
    (retry_number_given_budget inst run m).1 = Option.none := by
  have hany : members.any (fun member => member.parent_run_id == some run.run_id) = true := by
    rcases hc with ⟨member, hmem, hpar⟩
    refine List.any_eq_true.mpr ⟨member, hmem, ?_⟩
    simp [hpar]
  rcases eq_or_ne m 0 with h0 | h0
  · unfold retry_number_given_budget
    rw [if_pos h0]
  · unfold retry_number_given_budget
    rw [if_neg h0]
    simp only [hg]
    by_cases hlen : (members.length : Int) ≥ m + 1
    · rw [if_pos hlen]
    · rw [if_neg hlen, if_pos hany]

theorem rgb_none_of_budget (inst : DagsterInstance) (run : DagsterRun) (m : Int)
    {root : String} {members : List DagsterRun}
    (hg : inst.run_groups run.run_id = some (root, members))
    (hlen : (members.length : Int) ≥ m + 1) :
    (retry_number_given_budget inst run m).1 = Option.none := by
  rcases eq_or_ne m 0 with h0 | h0
  · unfold retry_number_given_budget
    rw [if_pos h0]
  · unfold retry_number_given_budget
    rw [if_neg h0]
    simp only [hg]
    rw [if_pos hlen]

theorem rgb_some (inst : DagsterInstance) (run : DagsterRun) (m : Int) (n : Nat)
    (h : (retry_number_given_budget inst run m).1 = some n) :
    (∃ root members, inst.run_groups run.run_id = some (root, members) ∧ n = members.length)
    ∨ (inst.run_groups run.run_id = Option.none ∧ n = 1) := by
  unfold retry_number_given_budget at h
  by_cases h0 : m = 0
  · rw [if_pos h0] at h
    simp at h
  · rw [if_neg h0] at h
    rcases hg : inst.run_groups run.run_id with _ | ⟨root, members⟩
    · simp only [hg] at h
      simp at h
      exact Or.inr ⟨rfl, h.symm⟩
    · simp only [hg] at h
      by_cases hlen : (members.length : Int) ≥ m + 1
      · rw [if_pos hlen] at h
        simp at h
      · rw [if_neg hlen] at h
        by_cases hany :
            (members.any fun member => member.parent_run_id == some run.run_id) = true
        · rw [if_pos hany] at h
          simp at h
        · rw [if_neg hany] at h
          simp at h
          exact Or.inl ⟨root, members, rfl, h.symm⟩

theorem get_retry_number_none_of_child (inst : DagsterInstance) (d : Int)
    (run : DagsterRun) {root : String} {members : List DagsterRun}
    (hg : inst.run_groups run.run_id = some (root, members))
    (hc : ∃ member ∈ members, member.parent_run_id = some run.run_id) :
    (get_retry_number inst d run).1 = Option.none := by
  unfold get_retry_number
  split
  · rfl
  · rcases hT : getTag run MAX_RETRIES_TAG with _ | raw
    · simp only [hT]
      exact rgb_none_of_child inst run d hg hc
    · rcases hP : parsePythonInt raw with _ | m
      · simp only [hT, hP]
      · simp only [hT, hP]
        exact rgb_none_of_child inst run m hg hc

theorem get_retry_number_none_of_budget (inst : DagsterInstance) (d : Int)
    (run : DagsterRun) (m : Int) {root : String} {members : List DagsterRun}
    (hg : inst.run_groups run.run_id = some (root, members))
    (heff : effectiveMaxRetries run d = some m)
    (hlen : (members.length : Int) ≥ m + 1) :
    (get_retry_number inst d run).1 = Option.none := by
  unfold effectiveMaxRetries at heff
  unfold get_retry_number
  split
  · rfl
  · rcases hT : getTag run MAX_RETRIES_TAG with _ | raw
    · simp only [hT] at heff ⊢
      replace heff := Option.some.inj heff
      subst heff
      exact rgb_none_of_budget inst run d hg hlen
    · simp only [hT] at heff ⊢
      simp only [heff]
      exact rgb_none_of_budget inst run m hg hlen

theorem get_retry_number_some (inst : DagsterInstance) (d : Int) (run : DagsterRun)
    (n : Nat) (h : (get_retry_number inst d run).1 = some n) :
    (∃ root members, inst.run_groups run.run_id = some (root, members) ∧ n = members.length)
    ∨ (inst.run_groups run.run_id = Option.none ∧ n = 1) := by
  unfold get_retry_number at h
  split at h
  · simp at h
  · rcases hT : getTag run MAX_RETRIES_TAG with _ | raw
    · simp only [hT] at h
      exact rgb_some inst run d n h
    · rcases hP : parsePythonInt raw with _ | m
      · simp only [hT, hP] at h
        simp at h
      · simp only [hT, hP] at h
        exact rgb_some inst run m n h

theorem get_retry_number_none_of_status (inst : DagsterInstance) (d : Int)
    (run : DagsterRun) (h : run.status ≠ DagsterRunStatus.FAILURE) :
    (get_retry_number inst d run).1 = Option.none := by
  unfold get_retry_number
  rw [if_pos h]

theorem rgb_none_of_zero (inst : DagsterInstance) (run : DagsterRun) :
    (retry_number_given_budget inst run 0).1 = Option.none := by
  unfold retry_number_given_budget
  rw [if_pos rfl]

theorem get_retry_number_none_of_zero (inst : DagsterInstance) (d : Int)
    (run : DagsterRun) (heff : effectiveMaxRetries run d = some 0) :
    (get_retry_number inst d run).1 = Option.none := by
  unfold effectiveMaxRetries at heff
  unfold get_retry_number
  split
  · rfl
  · rcases hT : getTag run MAX_RETRIES_TAG with _ | raw
    · simp only [hT] at heff ⊢
      replace heff := Option.some.inj heff
      subst heff
      exact rgb_none_of_zero inst run
    · simp only [hT] at heff ⊢
      simp only [heff]
      exact rgb_none_of_zero inst run

theorem not_yielded_of_filter_one_none (inst : DagsterInstance) (d : Int)
    {r : DagsterRun} (h : (filter_one inst d r).1 = Option.none) :
    ∀ runs n, (r, n) ∉ (filter_runs_to_should_retry runs inst d).1 := by
  intro runs n hmem
  have h1 := mem_filter_yield hmem
  rw [h1] at h
  simp at h

theorem getTag_addTag_self (run : DagsterRun) (k v : String) :
    getTag (addTag run k v) k = some v := by
  simp [getTag, addTag]

theorem getTag_addTag_ne (run : DagsterRun) {k k2 : String} (v : String) (hne : k ≠ k2) :
    getTag (addTag run k v) k2 = getTag run k2 := by
  unfold getTag addTag
  rw [List.find?_cons_of_neg]
  simp [hne]

theorem get_retry_number_addTag (inst : DagsterInstance) (d : Int) (run : DagsterRun)
    (v : String) {k : String} (hk : k ≠ MAX_RETRIES_TAG) :
    get_retry_number inst d (addTag run k v) = get_retry_number inst d run := by
  unfold get_retry_number
  rw [getTag_addTag_ne run v hk]
  rfl

theorem run_candidates_append (ctx : IWorkspaceProcessContext)
    (xs ys : List (DagsterRun × Nat)) :
    run_candidates ctx (xs ++ ys) = run_candidates ctx xs ++ run_candidates ctx ys := by
  induction xs with
  | nil => rfl
  | cons p rest ih =>
    cases p with
    | mk run n => simp [run_candidates, ih]

/- ### Concrete fixtures used by the witnesses -/

/-- A failed run with no tags, used as a base for concrete scenarios. -/
def wRunBase : DagsterRun :=
  { run_id := "a", status := DagsterRunStatus.FAILURE, parent_run_id := Option.none,
    job_name := "the_job", op_selection := Option.none, asset_selection := Option.none,
    remote_job_origin := Option.none, tags := [] }

/-- A retry child of `wRunBase` (its parent-run identifier is "a"). -/
def wChild : DagsterRun := { wRunBase with run_id := "b", parent_run_id := some "a" }

/-- An instance with no run groups, default budget gate on. -/
def wInstNoGroups : DagsterInstance :=
  { run_groups := fun _ => Option.none, run_retries_retry_on_asset_or_op_failure := true,
    run_retries_max_retries := 3, next_run_id := "fresh" }

/-- An instance whose group for run "a" already contains a child of "a". -/
def wInstChild : DagsterInstance :=
  { wInstNoGroups with
    run_groups := fun id => if id == "a" then some ("a", [wRunBase, wChild]) else Option.none }

/-- `wRunBase` with an explicit retry budget of 1. -/
def wRunMax1 : DagsterRun := { wRunBase with tags := [(MAX_RETRIES_TAG, "1")] }

/-- A sibling group member of run "a" that is the retry child of nobody. -/
def wOther : DagsterRun := { wRunBase with run_id := "c" }

/-- An instance whose group for run "a" has two members, none a child of "a". -/
def wInstBudget : DagsterInstance :=
  { wInstNoGroups with
    run_groups := fun id => if id == "a" then some ("a", [wRunMax1, wOther]) else Option.none }

/-- A run that did not fail. -/
def wRunSuccess : DagsterRun := { wRunBase with status := DagsterRunStatus.SUCCESS }

/- ### Claim theorems -/

/-- C1: for every run whose run group contains a member whose parent-run
identifier equals the identifier of that run, the Eligibility Filter excludes the
run — on this and every call with the same persisted group state (the
statement quantifies over every batch submitted to the filter). -/
theorem C1_already_retried_idempotency (inst : DagsterInstance) (d : Int)
    (runs : List DagsterRun) (r : DagsterRun) (n : Nat) (root : String)
    (members : List DagsterRun)
    (hgroup : inst.run_groups r.run_id = some (root, members))
    (hchild : ∃ member ∈ members, member.parent_run_id = some r.run_id) :
    (r, n) ∉ (filter_runs_to_should_retry runs inst d).1 := by
  intro hmem
  have h1 := mem_filter_yield hmem
  have h2 := filter_one_none_of_rn inst d r
    (get_retry_number_none_of_child inst d r hgroup hchild)
  rw [h1] at h2
  simp at h2

/-- Witness for C1: run "a" whose group contains child "b" is excluded. -/
theorem C1_already_retried_idempotency_witness :
    (wRunBase, 1) ∉ (filter_runs_to_should_retry [wRunBase] wInstChild 3).1 :=
  C1_already_retried_idempotency wInstChild 3 [wRunBase] wRunBase 1 "a" [wRunBase, wChild]
    (by rfl) ⟨wChild, by simp, by rfl⟩

/-- C3: for every run whose run group exists and whose group size is at least
the effective max retries plus one, the Eligibility Filter excludes the run,
whatever its other tag values. -/
theorem C3_budget_exhausted (inst : DagsterInstance) (d : Int) (runs : List DagsterRun)
    (r : DagsterRun) (n : Nat) (root : String) (members : List DagsterRun) (m : Int)
    (hgroup : inst.run_groups r.run_id = some (root, members))
    (heff : effectiveMaxRetries r d = some m)
    (hlen : (members.length : Int) ≥ m + 1) :
    (r, n) ∉ (filter_runs_to_should_retry runs inst d).1 := by
  intro hmem
  have h1 := mem_filter_yield hmem
  have h2 := filter_one_none_of_rn inst d r
    (get_retry_number_none_of_budget inst d r m hgroup heff hlen)
  rw [h1] at h2
  simp at h2

/-- Witness for C3: run "a" with `max_retries = 1` and a group of size 2 is
excluded. -/
theorem C3_budget_exhausted_witness :
    (wRunMax1, 1) ∉ (filter_runs_to_should_retry [wRunMax1] wInstBudget 3).1 :=
  C3_budget_exhausted wInstBudget 3 [wRunMax1] wRunMax1 1 "a" [wRunMax1, wOther] 1
    (by rfl) (by rfl) (by decide)

/-- C9: for every run whose status is not FAILURE, the Eligibility Filter
never yields that run, regardless of its tags or run-group state. -/
theorem C9_status_not_failure (inst : DagsterInstance) (d : Int)
    (runs : List DagsterRun) (r : DagsterRun) (n : Nat)
    (h : r.status ≠ DagsterRunStatus.FAILURE) :
    (r, n) ∉ (filter_runs_to_should_retry runs inst d).1 := by
  intro hmem
  have h1 := mem_filter_yield hmem
  have h2 := filter_one_none_of_rn inst d r (get_retry_number_none_of_status inst d r h)
  rw [h1] at h2
  simp at h2

/-- Witness for C9: a successful run is never yielded. -/
theorem C9_status_not_failure_witness :
    (wRunSuccess, 1) ∉ (filter_runs_to_should_retry [wRunSuccess] wInstNoGroups 3).1 :=
  C9_status_not_failure wInstNoGroups 3 [wRunSuccess] wRunSuccess 1 (by decide)

/-- C5: retry-budget resolution is fail-closed.  For a FAILURE run: a present
but unparsable `max_retries` tag reports a diagnostic event on the run and
excludes it from every batch; an absent tag makes the filter behave exactly as
if the run carried a tag spelling the supplied default (whatever default the
second call uses); a resolved budget of 0 excludes the run. -/
theorem C5_fail_closed_budget (inst : DagsterInstance) (d : Int) (r : DagsterRun)
    (hstatus : r.status = DagsterRunStatus.FAILURE) :
    (∀ raw, getTag r MAX_RETRIES_TAG = some raw → parsePythonInt raw = Option.none →
      (∀ runs n, (r, n) ∉ (filter_runs_to_should_retry runs inst d).1) ∧
      (∀ runs, r ∈ runs →
        max_retries_parse_event r ∈ (filter_runs_to_should_retry runs inst d).2))
    ∧ (getTag r MAX_RETRIES_TAG = Option.none → ∀ raw d2, parsePythonInt raw = some d →
        get_retry_number inst d r = get_retry_number inst d2 (addTag r MAX_RETRIES_TAG raw))
    ∧ (effectiveMaxRetries r d = some 0 →
        ∀ runs n, (r, n) ∉ (filter_runs_to_should_retry runs inst d).1) := by
  refine ⟨?_, ?_, ?_⟩
  · intro raw hT hP
    have hrn : get_retry_number inst d r = (Option.none, [max_retries_parse_event r]) := by
      unfold get_retry_number
      rw [if_neg (by simp [hstatus])]
      simp only [hT, hP]
    constructor
    · refine not_yielded_of_filter_one_none inst d (filter_one_none_of_rn inst d r ?_)
      rw [hrn]
    · intro runs hr
      refine mem_filter_events hr (filter_one_events_of_rn inst d r ?_)
      rw [hrn]
      simp
  · intro hT raw d2 hparse
    unfold get_retry_number
    simp only [hT, getTag_addTag_self, hparse]
    rfl
  · intro heff
    exact not_yielded_of_filter_one_none inst d
      (filter_one_none_of_rn inst d r (get_retry_number_none_of_zero inst d r heff))

/-- A failed run whose `max_retries` tag does not parse as an integer. -/
def wRunBadTag : DagsterRun := { wRunBase with tags := [(MAX_RETRIES_TAG, "two")] }

/-- A failed run with a retry budget of 0. -/
def wRunZero : DagsterRun := { wRunBase with tags := [(MAX_RETRIES_TAG, "0")] }

/-- Witness for C5: the unparsable tag "two" excludes and reports; an absent
tag equals an explicit tag "3" under default 3; the budget 0 excludes. -/
theorem C5_fail_closed_budget_witness :
    ((wRunBadTag, 1) ∉ (filter_runs_to_should_retry [wRunBadTag] wInstNoGroups 3).1)
    ∧ (max_retries_parse_event wRunBadTag
        ∈ (filter_runs_to_should_retry [wRunBadTag] wInstNoGroups 3).2)
    ∧ (get_retry_number wInstNoGroups 3 wRunBase
        = get_retry_number wInstNoGroups 7 (addTag wRunBase MAX_RETRIES_TAG "3"))
    ∧ ((wRunZero, 1) ∉ (filter_runs_to_should_retry [wRunZero] wInstNoGroups 3).1) := by
  refine ⟨?_, ?_, ?_, ?_⟩
  · exact ((C5_fail_closed_budget wInstNoGroups 3 wRunBadTag rfl).1 "two" rfl
      (by decide)).1 [wRunBadTag] 1
  · exact ((C5_fail_closed_budget wInstNoGroups 3 wRunBadTag rfl).1 "two" rfl
      (by decide)).2 [wRunBadTag] (by simp)
  · exact (C5_fail_closed_budget wInstNoGroups 3 wRunBase rfl).2.1 rfl "3" 7 (by decide)
  · exact (C5_fail_closed_budget wInstNoGroups 3 wRunZero rfl).2.2 (by decide) [wRunZero] 1

/-- C6: every yielded `(run, generation)` pair has a positive generation equal
to the run-group size when a group exists and 1 when no group exists.  The
well-formedness hypothesis is the group contract of the run store: a group returned
for a run contains that run. -/
theorem C6_generation (inst : DagsterInstance) (d : Int) (runs : List DagsterRun)
    (r : DagsterRun) (n : Nat)
    (hwf : ∀ root members, inst.run_groups r.run_id = some (root, members) →
      ∃ member ∈ members, member.run_id = r.run_id)
    (hmem : (r, n) ∈ (filter_runs_to_should_retry runs inst d).1) :
    1 ≤ n ∧
      ((∃ root members, inst.run_groups r.run_id = some (root, members) ∧ n = members.length)
       ∨ (inst.run_groups r.run_id = Option.none ∧ n = 1)) := by
  have h1 := mem_filter_yield hmem
  have h2 := filter_one_some_rn inst d r (r, n) h1
  have h3 := get_retry_number_some inst d r n h2
  refine ⟨?_, h3⟩
  rcases h3 with ⟨root, members, hg, hn⟩ | ⟨hg, hn⟩
  · rcases hwf root members hg with ⟨member, hmemb, _⟩
    rw [hn]
    exact List.length_pos.mpr (List.ne_nil_of_mem hmemb)
  · rw [hn]

/-- A failed run with `max_retries = 2` and no other tags. -/
def wRunMax2 : DagsterRun := { wRunBase with tags := [(MAX_RETRIES_TAG, "2")] }

/-- Witness for C6: run A with status FAILURE, `max_retries = 2` and no
existing group is yielded as `(A, 1)`. -/
theorem C6_generation_witness :
    1 ≤ 1 ∧
      ((∃ root members, wInstNoGroups.run_groups wRunMax2.run_id = some (root, members)
          ∧ 1 = members.length)
       ∨ (wInstNoGroups.run_groups wRunMax2.run_id = Option.none ∧ 1 = 1)) :=
  C6_generation wInstNoGroups 3 [wRunMax2] wRunMax2 1
    (fun root members h => by simp [wInstNoGroups] at h)
    (by decide)

/-- C7: the effective retry-on-asset-or-op-failure gate is the process-wide
default when the tag is absent and the value of the tag when present; for an
otherwise-eligible run whose failure-reason tag is the step-failure sentinel,
a false gate reports a diagnostic event and excludes the run, a true gate
includes it. -/
theorem C7_asset_op_failure_gate (inst : DagsterInstance) (d : Int) (r : DagsterRun) :
    (getTag r RETRY_ON_ASSET_OR_OP_FAILURE_TAG = Option.none →
      ∀ b, get_boolean_tag_value (getTag r RETRY_ON_ASSET_OR_OP_FAILURE_TAG) b = b)
    ∧ (∀ v, getTag r RETRY_ON_ASSET_OR_OP_FAILURE_TAG = some v →
        ∀ b b2, get_boolean_tag_value (getTag r RETRY_ON_ASSET_OR_OP_FAILURE_TAG) b
          = get_boolean_tag_value (some v) b2)
    ∧ (∀ n, (get_retry_number inst d r).1 = some n →
        getTag r RUN_FAILURE_REASON_TAG = some RunFailureReason.STEP_FAILURE.value →
        (get_boolean_tag_value (getTag r RETRY_ON_ASSET_OR_OP_FAILURE_TAG)
            inst.run_retries_retry_on_asset_or_op_failure = false →
          (filter_one inst d r).1 = Option.none ∧
            asset_op_skip_event r ∈ (filter_one inst d r).2)
        ∧ (get_boolean_tag_value (getTag r RETRY_ON_ASSET_OR_OP_FAILURE_TAG)
            inst.run_retries_retry_on_asset_or_op_failure = true →
          (filter_one inst d r).1 = some (r, n))) := by
  refine ⟨?_, ?_, ?_⟩
  · intro htag b
    rw [htag]
    rfl
  · intro v htag b b2
    rw [htag]
    rfl
  · intro n hrn hfr
    rcases hg : get_retry_number inst d r with ⟨rn, evs⟩
    rw [hg] at hrn
    simp at hrn
    subst hrn
    constructor
    · intro hgate
      have hout : filter_one inst d r = (Option.none, evs ++ [asset_op_skip_event r]) := by
        rw [filter_one, hg]
        simp only [filter_one_post]
        rw [if_pos ⟨hfr, hgate⟩]
      rw [hout]
      exact ⟨rfl, by simp⟩
    · intro hgate
      have hout : filter_one inst d r = (some (r, n), evs) := by
        rw [filter_one, hg]
        simp only [filter_one_post]
        rw [if_neg]
        rintro ⟨-, hfalse⟩
        rw [hgate] at hfalse
        simp at hfalse
      rw [hout]

/-- A failed run whose failure reason is the step-failure sentinel and whose
gate tag is "false". -/
def wRunStepFail : DagsterRun :=
  { wRunBase with
    tags := [(RUN_FAILURE_REASON_TAG, "STEP_FAILURE"),
             (RETRY_ON_ASSET_OR_OP_FAILURE_TAG, "false")] }

/-- Witness for C7: an absent gate tag means the default; a step-failure run
with the gate tag "false" is excluded with a skip event even though the
process-wide default is true. -/
theorem C7_asset_op_failure_gate_witness :
    (get_boolean_tag_value (getTag wRunBase RETRY_ON_ASSET_OR_OP_FAILURE_TAG) false = false)
    ∧ ((filter_one wInstNoGroups 3 wRunStepFail).1 = Option.none ∧
        asset_op_skip_event wRunStepFail ∈ (filter_one wInstNoGroups 3 wRunStepFail).2) :=
  ⟨(C7_asset_op_failure_gate wInstNoGroups 3 wRunBase).1 rfl false,
   ((C7_asset_op_failure_gate wInstNoGroups 3 wRunStepFail).2.2 1 (by decide)
      (by decide)).1 (by decide)⟩

/-- C8: strategy selection is fail-soft.  An absent `retry_strategy` tag
returns nothing with no event; an unrecognized name reports a diagnostic event
and returns nothing; a recognized name returns that variant; and whenever the
selector returns nothing, a successful submission creates the new run under
the default from-point-of-failure strategy. -/
theorem C8_strategy_fail_soft (r : DagsterRun) :
    (getTag r RETRY_STRATEGY_TAG = Option.none →
      get_reexecution_strategy r = (Option.none, []))
    ∧ (∀ raw, getTag r RETRY_STRATEGY_TAG = some raw →
        reexecutionStrategyMember raw = Option.none →
        (get_reexecution_strategy r).1 = Option.none ∧
          retry_strategy_parse_event r raw ∈ (get_reexecution_strategy r).2)
    ∧ (∀ raw s, getTag r RETRY_STRATEGY_TAG = some raw →
        reexecutionStrategyMember raw = some s →
        (get_reexecution_strategy r).1 = some s)
    ∧ ((get_reexecution_strategy r).1 = Option.none →
        ∀ ctx n effects, retry_run r n ctx = Except.ok effects →
        ∀ p ∈ effects.created_runs, p.2 = DEFAULT_REEXECUTION_POLICY) := by
  refine ⟨?_, ?_, ?_, ?_⟩
  · intro htag
    unfold get_reexecution_strategy
    rw [htag]
  · intro raw htag hmem
    unfold get_reexecution_strategy
    simp only [htag, hmem]
    exact ⟨by simp, by simp⟩
  · intro raw s htag hmem
    unfold get_reexecution_strategy
    simp only [htag, hmem]
  · intro hnone ctx n effects hok p hp
    simp only [retry_run] at hok
    rcases horig : r.remote_job_origin with _ | origin
    · simp only [horig] at hok
      cases hok
      simp [eventOnly] at hp
    · simp only [horig] at hok
      rcases hloc : ctx.create_request_context.get_code_location origin.location_name
        with e | code_location
      · simp only [hloc] at hok
        simp at hok
      · simp only [hloc] at hok
        cases hb : code_location.has_repository origin.repository_name with
        | false =>
          simp only [hb, Bool.not_false, if_true] at hok
          cases hok
          simp [eventOnly] at hp
        | true =>
          simp only [hb, Bool.not_true, if_false] at hok
          rcases hr : code_location.get_repository origin.repository_name with _ | repo
          · simp only [hr] at hok
            simp at hok
          · simp only [hr] at hok
            cases hj : repo.has_job r.job_name with
            | false =>
              simp only [hj, Bool.not_false, if_true] at hok
              cases hok
              simp [eventOnly] at hp
            | true =>
              simp only [hj, Bool.not_true, if_false] at hok
              cases hok
              simp at hp
              rw [hp]
              simp [hnone]

/-- A failed run carrying the unrecognized strategy name "BOGUS". -/
def wRunBogus : DagsterRun := { wRunBase with tags := [(RETRY_STRATEGY_TAG, "BOGUS")] }

/-- A failed run carrying the recognized strategy name "ALL_STEPS". -/
def wRunAllSteps : DagsterRun :=
  { wRunBase with tags := [(RETRY_STRATEGY_TAG, "ALL_STEPS")] }

/-- Witness for C8: no tag returns nothing; "BOGUS" reports and returns
nothing; "ALL_STEPS" returns that variant. -/
theorem C8_strategy_fail_soft_witness :
    (get_reexecution_strategy wRunBase = (Option.none, []))
    ∧ ((get_reexecution_strategy wRunBogus).1 = Option.none ∧
        retry_strategy_parse_event wRunBogus "BOGUS" ∈ (get_reexecution_strategy wRunBogus).2)
    ∧ ((get_reexecution_strategy wRunAllSteps).1 = some ReexecutionStrategy.ALL_STEPS) :=
  ⟨(C8_strategy_fail_soft wRunBase).1 rfl,
   (C8_strategy_fail_soft wRunBogus).2.1 "BOGUS" (by decide) (by decide),
   (C8_strategy_fail_soft wRunAllSteps).2.2.1 "ALL_STEPS" ReexecutionStrategy.ALL_STEPS
     (by decide) (by decide)⟩

/-- The parent run "p" carrying a dangling lineage tag: its `auto_retry_run_id`
points at a run that is no longer in its group. -/
def wRunOrphan : DagsterRun :=
  { wRunBase with run_id := "p", tags := [(AUTO_RETRY_RUN_ID_TAG, "ghost")] }

/-- An instance whose group for "p" contains only "p" itself — the retry child
named by the lineage tag was deleted. -/
def wInstOrphan : DagsterInstance :=
  { wInstNoGroups with
    run_groups := fun id => if id == "p" then some ("p", [wRunOrphan]) else Option.none }

/-- C10: the already-retried guard reads only run-group membership, never the
`auto_retry_run_id` tag — the decision, events and generation of the filter are
invariant under adding that tag (only the yielded run record itself carries
the extra tag) — and a run whose lineage tag dangles (group contains no child)
is yielded again. -/
theorem C10_guard_ignores_lineage_tag (inst : DagsterInstance) (d : Int)
    (r : DagsterRun) (v : String) :
    (filter_one inst d (addTag r AUTO_RETRY_RUN_ID_TAG v)
      = ((filter_one inst d r).1.map (fun p => (addTag r AUTO_RETRY_RUN_ID_TAG v, p.2)),
         (filter_one inst d r).2))
    ∧ (wRunOrphan, 1) ∈ (filter_runs_to_should_retry [wRunOrphan] wInstOrphan 3).1 := by
  constructor
  · rw [filter_one, filter_one, get_retry_number_addTag inst d r v (by decide)]
    rcases hg : get_retry_number inst d r with ⟨rn, evs⟩
    cases rn with
    | none => simp [filter_one_post]
    | some n =>
      simp only [filter_one_post]
      rw [getTag_addTag_ne r v (show AUTO_RETRY_RUN_ID_TAG ≠ RUN_FAILURE_REASON_TAG
            by decide),
          getTag_addTag_ne r v (show AUTO_RETRY_RUN_ID_TAG ≠ RETRY_ON_ASSET_OR_OP_FAILURE_TAG
            by decide)]
      by_cases hc : getTag r RUN_FAILURE_REASON_TAG = some RunFailureReason.STEP_FAILURE.value
          ∧ get_boolean_tag_value (getTag r RETRY_ON_ASSET_OR_OP_FAILURE_TAG)
              inst.run_retries_retry_on_asset_or_op_failure = false
      · rw [if_pos hc, if_pos hc]
        rfl
      · rw [if_neg hc, if_neg hc]
        rfl
  · decide

/-- C2: the orchestrator yields a checkpoint before the submission of each
candidate; a submission that raises is captured as a "Failed to retry run"
event on that run with the error detail, is swallowed, and processing
continues with the remaining candidates — the trace is a total list, so no
exception escapes. -/
theorem C2_orchestrator_failure_isolation (ctx : IWorkspaceProcessContext)
    (records : List RunRecord) (pre rest : List (DagsterRun × Nat))
    (r : DagsterRun) (n : Nat)
    (hfilter : (filter_runs_to_should_retry (records.map RunRecord.dagster_run)
        ctx.inst ctx.inst.run_retries_max_retries).1 = pre ++ (r, n) :: rest) :
    consume_new_runs_for_automatic_reexecution ctx records
      = run_candidates ctx pre
        ++ OrchestratorStep.checkpoint r.run_id
          :: (match retry_run r n ctx with
              | Except.ok effects => OrchestratorStep.submitted r.run_id effects
              | Except.error e =>
                OrchestratorStep.submission_failed r.run_id (failed_retry_event r e))
          :: run_candidates ctx rest
    ∧ ∀ e, retry_run r n ctx = Except.error e →
        consume_new_runs_for_automatic_reexecution ctx records
          = run_candidates ctx pre
            ++ OrchestratorStep.checkpoint r.run_id
              :: OrchestratorStep.submission_failed r.run_id (failed_retry_event r e)
              :: run_candidates ctx rest := by
  have hmain : consume_new_runs_for_automatic_reexecution ctx records
      = run_candidates ctx pre
        ++ OrchestratorStep.checkpoint r.run_id
          :: (match retry_run r n ctx with
              | Except.ok effects => OrchestratorStep.submitted r.run_id effects
              | Except.error e =>
                OrchestratorStep.submission_failed r.run_id (failed_retry_event r e))
          :: run_candidates ctx rest := by
    unfold consume_new_runs_for_automatic_reexecution
    rw [hfilter, run_candidates_append]
    rfl
  refine ⟨hmain, ?_⟩
  intro e he
  rw [hmain, he]

/-- The remote-job origin of the concrete failing candidate. -/
def wOrigin : RemoteJobOrigin := { location_name := "L", repository_name := "repo" }

/-- A failed run whose origin names a code location missing from the
workspace. -/
def wRunC : DagsterRun := { wRunBase with run_id := "c", remote_job_origin := some wOrigin }

/-- A context whose workspace has no code locations at all. -/
def wCtxNoLoc : IWorkspaceProcessContext :=
  { inst := wInstNoGroups, request_context := { code_locations := [] } }

/-- Witness for C2: the submission of the candidate raises (missing code
location); the orchestrator trace is checkpoint, then the captured-error
event, with nothing before or after. -/
theorem C2_orchestrator_failure_isolation_witness :
    consume_new_runs_for_automatic_reexecution wCtxNoLoc [⟨wRunC⟩]
      = run_candidates wCtxNoLoc []
        ++ OrchestratorStep.checkpoint wRunC.run_id
          :: OrchestratorStep.submission_failed wRunC.run_id
              (failed_retry_event wRunC "Location L does not exist in workspace")
          :: run_candidates wCtxNoLoc [] :=
  (C2_orchestrator_failure_isolation wCtxNoLoc [⟨wRunC⟩] [] [] wRunC 1 rfl).2
    "Location L does not exist in workspace" rfl

/-- A repository lookup succeeding when the find succeeds. -/
theorem has_repository_of_get (loc : CodeLocation) {rn : String} {repo : Repository}
    (h : loc.get_repository rn = some repo) : loc.has_repository rn = true := by
  unfold CodeLocation.get_repository at h
  unfold CodeLocation.has_repository
  refine List.any_eq_true.mpr ⟨repo, List.mem_of_find?_eq_some h, ?_⟩
  have hp := List.find?_some h
  simpa using hp

/-- C4 counterexample: a run whose origin names a code location absent from
the workspace.  `retry_run` raises (propagates the resolver exception) and
reports no diagnostic event, so "missing code location" is not a soft-fail
checkpoint of the submitter, contrary to the claim. -/
theorem C4_missing_location_counterexample :
    retry_run wRunC 1 wCtxNoLoc = Except.error "Location L does not exist in workspace"
    ∧ ∀ effects, retry_run wRunC 1 wCtxNoLoc ≠ Except.ok effects := by
  refine ⟨rfl, fun effects h => ?_⟩
  rw [show retry_run wRunC 1 wCtxNoLoc
      = Except.error "Location L does not exist in workspace" from rfl] at h
  simp at h

/-- C4 (amended): for the reference-resolution failures the submitter checks
itself — missing remote-job origin, missing repository, missing job — it
reports a diagnostic event on the failed run and returns early without
raising, with no run creation, no submission and no tag mutation; a missing
code location instead makes the resolver exception escape the submitter. -/
theorem C4_soft_fail_checkpoints (ctx : IWorkspaceProcessContext) (r : DagsterRun)
    (n : Nat) :
    (r.remote_job_origin = Option.none →
      retry_run r n ctx = Except.ok (eventOnly (missing_origin_event r)))
    ∧ (∀ origin code_location, r.remote_job_origin = some origin →
        ctx.create_request_context.get_code_location origin.location_name
          = Except.ok code_location →
        code_location.has_repository origin.repository_name = false →
        retry_run r n ctx
          = Except.ok (eventOnly
              (missing_repo_event r origin.repository_name code_location.name)))
    ∧ (∀ origin code_location repo, r.remote_job_origin = some origin →
        ctx.create_request_context.get_code_location origin.location_name
          = Except.ok code_location →
        code_location.get_repository origin.repository_name = some repo →
        repo.has_job r.job_name = false →
        retry_run r n ctx
          = Except.ok (eventOnly (missing_job_event r r.job_name origin.repository_name)))
    ∧ (∀ origin e, r.remote_job_origin = some origin →
        ctx.create_request_context.get_code_location origin.location_name
          = Except.error e →
        retry_run r n ctx = Except.error e) := by
  refine ⟨?_, ?_, ?_, ?_⟩
  · intro h
    simp only [retry_run, h]
  · intro origin code_location h hloc hrep
    simp only [retry_run, h, hloc, hrep, Bool.not_false, if_true]
  · intro origin code_location repo h hloc hrep hjob
    have hhas := has_repository_of_get code_location hrep
    simp only [retry_run, h, hloc, hhas, Bool.not_true, if_false, hrep, hjob,
      Bool.not_false, if_true]
    rfl
  · intro origin e h hloc
    simp only [retry_run, h, hloc]

/-- Witness for C4 (amended): the no-origin soft-fail checkpoint at a concrete
run — one event, no creation, no submission, no tag mutation. -/
theorem C4_soft_fail_checkpoints_witness :
    retry_run wRunBase 1 wCtxNoLoc = Except.ok (eventOnly (missing_origin_event wRunBase)) :=
  (C4_soft_fail_checkpoints wCtxNoLoc wRunBase 1).1 rfl

end AutoReexec
